import Mathlib

/-!
# Shallow embedding of `p5/pmath/vector.py` (the `Vector` class)

The Python class `Vector` stores three scalar components `x`, `y`, `z`
and offers angle/magnitude accessors, rotation, normalization, limiting,
arithmetic operators and randomized factories.  We embed the class over
the real numbers: each Python float field becomes a real number, each
method becomes a Lean function, and each method that can raise a Python
exception returns `Except Err _` where `Err` names the exception class
raised (`ValueError`, `ZeroDivisionError`, `TypeError`).  Python's float
division raises `ZeroDivisionError` on a zero divisor, so every division
in the source is guarded by the corresponding zero test here.

Calls to `random.random()` (uniform draws from `[0,1)`) are modelled by
passing the drawn values explicitly as arguments, so the randomized
factories become deterministic functions of their draws.
-/

namespace P5

/-- The Python exceptions that methods of `Vector` can raise. -/
inductive Err where
  | valueError
  | zeroDivisionError
  | typeError

/-- `Vector.__init__`: three scalar components, `z` defaulting to `0`
at the call sites that pass only two arguments. -/
structure Vector where
  x : ℝ
  y : ℝ
  z : ℝ

/-- Operands that can appear on the right of `Vector.__mul__`: a number
(Python `int`/`float`), another vector, or any other non-numeric value. -/
inductive VObj where
  | num : ℝ → VObj
  | vec : Vector → VObj
  | other : VObj

noncomputable section

open Real

/-- `math.atan2(y, x)`: the argument of the point `(x, y)`, with the
same `(-π, π]` convention as the IEEE function on non-degenerate
inputs (and `atan2 0 0 = 0`). -/
def atan2 (y x : ℝ) : ℝ := Complex.arg ⟨x, y⟩

/-- `Vector.dot`: sum of componentwise products over the `(x, y, z)`
iteration order. -/
def dot (v w : Vector) : ℝ := v.x * w.x + v.y * w.y + v.z * w.z

/-- `Vector.magnitude` (read): `math.sqrt(self.dot(self))`. -/
def magnitude (v : Vector) : ℝ := Real.sqrt (dot v v)

/-- `Vector.angle` (read): raises `ValueError` when `self.z != 0`,
otherwise returns `math.atan2(self.y, self.x)`. -/
def angle (v : Vector) : Except Err ℝ :=
  if v.z ≠ 0 then .error Err.valueError else .ok (atan2 v.y v.x)

/-- `Vector.rotate`: both new components are computed from the old
`self.x`, `self.y` (the source stores them in locals first); `z` is
not written. -/
def rotate (v : Vector) (θ : ℝ) : Vector :=
  ⟨v.x * Real.cos θ - v.y * Real.sin θ,
   v.x * Real.sin θ + v.y * Real.cos θ,
   v.z⟩

/-- `Vector.angle` (write): `self.rotate(theta - self.angle)`; reading
`self.angle` first propagates its `ValueError` on a 3D vector. -/
def set_angle (v : Vector) (θ : ℝ) : Except Err Vector :=
  (angle v).map fun a => rotate v (θ - a)

/-- `Vector.magnitude` (write): divides each component by the current
magnitude; Python raises `ZeroDivisionError` when that magnitude is
zero. -/
def set_magnitude (v : Vector) (m : ℝ) : Except Err Vector :=
  if magnitude v = 0 then .error Err.zeroDivisionError
  else .ok ⟨v.x / magnitude v * m, v.y / magnitude v * m, v.z / magnitude v * m⟩

/-- `Vector.normalize`: `self.magnitude = 1`. -/
def normalize (v : Vector) : Except Err Vector := set_magnitude v 1

/-- `Vector.limit(upper_limit=None, lower_limit=None)`: each omitted
(`None`) bound defaults to the current magnitude; the lower-bound
branch is tested first. -/
def limit (v : Vector) ( upper_limit lower_limit : Option ℝ) : Except Err Vector :=
  if magnitude v < lower_limit.getD (magnitude v) then
    set_magnitude v (lower_limit.getD (magnitude v))
  else if magnitude v > upper_limit.getD (magnitude v) then
    set_magnitude v ( upper_limit.getD (magnitude v))
  else .ok v

/-- `Vector.__mul__`: scales componentwise when the operand is an
`int`/`float`, raises `TypeError` otherwise (in particular for another
vector). -/
def mul (v : Vector) (k : VObj) : Except Err Vector :=
  match k with
  | VObj.num r => .ok ⟨v.x * r, v.y * r, v.z * r⟩
  | VObj.vec _ => .error Err.typeError
  | VObj.other => .error Err.typeError

/-- `Vector.__rmul__`: `self * other`. -/
def rmul (v : Vector) (k : VObj) : Except Err Vector := mul v k

/-- `Vector.__neg__`: `-1 * self`, routed through multiplication. -/
def neg (v : Vector) : Except Err Vector := mul v (VObj.num (-1))

/-- `Vector.__truediv__`: `self * (1 / other)`; Python's `1 / other`
raises `ZeroDivisionError` when `other` is zero. -/
def truediv (v : Vector) (k : ℝ) : Except Err Vector :=
  if k = 0 then .error Err.zeroDivisionError else mul v (VObj.num (1 / k))

/-- `Vector.cross`: the standard 3D cross-product formula. -/
def cross (v w : Vector) : Vector :=
  ⟨v.y * w.z - v.z * w.y,
   v.z * w.x - v.x * w.z,
   v.x * w.y - v.y * w.x⟩

/-- `Vector.angle_between`: `math.acos((self @ other) / (|self| * |other|))`.
Python raises `ZeroDivisionError` when the product of magnitudes is zero
and `ValueError` (from `math.acos`) when the ratio leaves `[-1, 1]`. -/
def angle_between (v w : Vector) : Except Err ℝ :=
  if magnitude v * magnitude w = 0 then .error Err.zeroDivisionError
  else if dot v w / (magnitude v * magnitude w) < -1 ∨
          1 < dot v w / (magnitude v * magnitude w) then .error Err.valueError
  else .ok (Real.arccos (dot v w / (magnitude v * magnitude w)))

/-- `math.isclose` at its default tolerances (`rel_tol=1e-9`,
`abs_tol=0.0`): `abs(a-b) <= max(rel_tol * max(abs(a), abs(b)), abs_tol)`. -/
def isclose (a b : ℝ) : Prop := |a - b| ≤ max ((1e-9 : ℝ) * max |a| |b|) 0

/-- `Vector.__eq__`: componentwise `math.isclose` over the `(x, y, z)`
iteration. -/
def veq (v w : Vector) : Prop := isclose v.x w.x ∧ isclose v.y w.y ∧ isclose v.z w.z

/-- `Vector.random_2D`, with the two `random.random()` draws passed in:
construct `Vector(x, y)` and normalize it. -/
def random_2D (x y : ℝ) : Except Err Vector := normalize ⟨x, y, 0⟩

/-- `Vector.random_3D`, with the three `random.random()` draws passed in:
construct `Vector(x, y, z)` and normalize it. -/
def random_3D (x y z : ℝ) : Except Err Vector := normalize ⟨x, y, z⟩

/-- `Vector.from_angle`, with the draws of the intermediate
`random_2D()` passed in: build a random 2D unit vector, then assign its
`angle` property. -/
def from_angle (x y θ : ℝ) : Except Err Vector :=
  (random_2D x y).bind fun v => set_angle v θ

/-! ## Helper lemmas -/

lemma dot_self_nonneg (v : Vector) : 0 ≤ dot v v := by
  unfold dot
  nlinarith [mul_self_nonneg v.x, mul_self_nonneg v.y, mul_self_nonneg v.z]

lemma magnitude_nonneg (v : Vector) : 0 ≤ magnitude v := Real.sqrt_nonneg _

lemma magnitude_pos_of_ne (v : Vector) (h : magnitude v ≠ 0) : 0 < magnitude v :=
  (magnitude_nonneg v).lt_of_ne (Ne.symm h)

lemma magnitude_eq_zero_iff (v : Vector) :
    magnitude v = 0 ↔ v.x = 0 ∧ v.y = 0 ∧ v.z = 0 := by
  unfold magnitude
  rw [Real.sqrt_eq_zero (dot_self_nonneg v)]
  unfold dot
  constructor
  · intro h
    refine ⟨?_, ?_, ?_⟩ <;>
      exact mul_self_eq_zero.mp (le_antisymm
        (by nlinarith [mul_self_nonneg v.x, mul_self_nonneg v.y, mul_self_nonneg v.z])
        (mul_self_nonneg _))
  · rintro ⟨hx, hy, hz⟩
    rw [hx, hy, hz]
    ring

lemma sq_magnitude (v : Vector) : magnitude v ^ 2 = dot v v :=
  Real.sq_sqrt (dot_self_nonneg v)

lemma set_magnitude_ok (v : Vector) (m : ℝ) (h : magnitude v ≠ 0) :
    set_magnitude v m =
      .ok ⟨v.x / magnitude v * m, v.y / magnitude v * m, v.z / magnitude v * m⟩ := by
  unfold set_magnitude
  rw [if_neg h]

lemma magnitude_scaled (v : Vector) (m : ℝ) (h : magnitude v ≠ 0) (hm : 0 ≤ m) :
    magnitude ⟨v.x / magnitude v * m, v.y / magnitude v * m, v.z / magnitude v * m⟩
      = m := by
  have h2 : magnitude v ^ 2 = dot v v := sq_magnitude v
  have hd : dot ⟨v.x / magnitude v * m, v.y / magnitude v * m, v.z / magnitude v * m⟩
      ⟨v.x / magnitude v * m, v.y / magnitude v * m, v.z / magnitude v * m⟩ = m ^ 2 := by
    unfold dot at h2 ⊢
    field_simp
    linear_combination m ^ 2 * h2.symm
  have hmag : magnitude
        ⟨v.x / magnitude v * m, v.y / magnitude v * m, v.z / magnitude v * m⟩
      = Real.sqrt (dot
        ⟨v.x / magnitude v * m, v.y / magnitude v * m, v.z / magnitude v * m⟩
        ⟨v.x / magnitude v * m, v.y / magnitude v * m, v.z / magnitude v * m⟩) := rfl
  rw [hmag, hd, Real.sqrt_sq hm]

lemma magnitude_rotate (v : Vector) (θ : ℝ) :
    magnitude (rotate v θ) = magnitude v := by
  unfold magnitude rotate dot
  congr 1
  simp only []
  linear_combination (v.x * v.x + v.y * v.y) * Real.sin_sq_add_cos_sq θ

lemma isclose_refl (a : ℝ) : isclose a a := by
  unfold isclose
  rw [sub_self, abs_zero]
  exact le_max_right _ _

lemma isclose_of_eq {a b : ℝ} (h : a = b) : isclose a b := h ▸ isclose_refl a

lemma abs_mk_unit (a b : ℝ) (hab : a * a + b * b = 1) : Complex.abs ⟨a, b⟩ = 1 := by
  rw [Complex.abs_apply, Complex.normSq_mk, hab, Real.sqrt_one]

lemma mk_ne_zero_of_unit (a b : ℝ) (hab : a * a + b * b = 1) : (⟨a, b⟩ : ℂ) ≠ 0 := by
  intro h
  have h1 := abs_mk_unit a b hab
  rw [h] at h1
  simp at h1

lemma cos_atan2 (a b : ℝ) (hab : a * a + b * b = 1) : Real.cos (atan2 b a) = a := by
  unfold atan2
  rw [Complex.cos_arg (mk_ne_zero_of_unit a b hab), abs_mk_unit a b hab]
  simp

lemma sin_atan2 (a b : ℝ) (hab : a * a + b * b = 1) : Real.sin (atan2 b a) = b := by
  unfold atan2
  rw [Complex.sin_arg, abs_mk_unit a b hab]
  simp

lemma rotate_unit (a b θ : ℝ) (hab : a * a + b * b = 1) :
    rotate ⟨a, b, 0⟩ (θ - atan2 b a) = ⟨Real.cos θ, Real.sin θ, 0⟩ := by
  have hc := cos_atan2 a b hab
  have hs := sin_atan2 a b hab
  have e1 : Real.cos θ
      = a * Real.cos (θ - atan2 b a) - b * Real.sin (θ - atan2 b a) := by
    have h := Real.cos_add (atan2 b a) (θ - atan2 b a)
    rw [hc, hs, show atan2 b a + (θ - atan2 b a) = θ from by ring] at h
    exact h
  have e2 : Real.sin θ
      = a * Real.sin (θ - atan2 b a) + b * Real.cos (θ - atan2 b a) := by
    have h := Real.sin_add (atan2 b a) (θ - atan2 b a)
    rw [hc, hs, show atan2 b a + (θ - atan2 b a) = θ from by ring] at h
    rw [h]
    ring
  unfold rotate
  rw [e1, e2]

lemma atan2_cos_sin (θ : ℝ) (h1 : -π < θ) (h2 : θ ≤ π) :
    atan2 (Real.sin θ) (Real.cos θ) = θ := by
  unfold atan2
  rw [Complex.mk_eq_add_mul_I, Complex.ofReal_cos, Complex.ofReal_sin]
  exact Complex.arg_cos_add_sin_mul_I ⟨h1, h2⟩

lemma magnitude_cos_sin (θ : ℝ) :
    magnitude ⟨Real.cos θ, Real.sin θ, 0⟩ = 1 := by
  unfold magnitude dot
  simp only []
  rw [show Real.cos θ * Real.cos θ + Real.sin θ * Real.sin θ + 0 * 0 = 1 from by
    linear_combination Real.sin_sq_add_cos_sq θ]
  exact Real.sqrt_one

lemma magnitude_236 : magnitude ⟨2, 3, 6⟩ = 7 := by
  unfold magnitude dot
  rw [show (2 : ℝ) * 2 + 3 * 3 + 6 * 6 = 7 ^ 2 from by norm_num]
  exact Real.sqrt_sq (by norm_num)

lemma magnitude_zero_vec : magnitude ⟨0, 0, 0⟩ = 0 := by
  unfold magnitude dot
  rw [show (0 : ℝ) * 0 + 0 * 0 + 0 * 0 = 0 from by norm_num]
  exact Real.sqrt_zero

lemma atan2_zero_one : atan2 0 1 = 0 := by
  show Complex.arg 1 = 0
  exact Complex.arg_one

lemma magnitude_340 : magnitude ⟨3, 4, 0⟩ = 5 := by
  unfold magnitude dot
  rw [show (3 : ℝ) * 3 + 4 * 4 + 0 * 0 = 5 ^ 2 from by norm_num]
  exact Real.sqrt_sq (by norm_num)

/-! ## Claim theorems -/

/-- C1: reading the `angle` property raises `ValueError` exactly when the
vector's `z` component is nonzero; with `z = 0` it returns `atan2(y, x)`
without error; and the `angle` setter fails under the same nonzero-`z`
precondition (because it reads the current angle first), succeeding when
`z = 0`. -/
theorem C1_angle_domain_error (v : Vector) (θ : ℝ) :
    (v.z ≠ 0 → angle v = .error Err.valueError ∧
      set_angle v θ = .error Err.valueError) ∧
    (v.z = 0 → angle v = .ok (atan2 v.y v.x) ∧
      set_angle v θ = .ok (rotate v (θ - atan2 v.y v.x))) := by
  constructor
  · intro h
    have ha : angle v = .error Err.valueError := by
      unfold angle
      rw [if_pos h]
    exact ⟨ha, by unfold set_angle; rw [ha]; rfl⟩
  · intro h
    have ha : angle v = .ok (atan2 v.y v.x) := by
      unfold angle
      rw [if_neg (not_not_intro h)]
    exact ⟨ha, by unfold set_angle; rw [ha]; rfl⟩

theorem C1_angle_domain_error_witness :
    angle ⟨1, 1, 1⟩ = .error Err.valueError ∧
    set_angle ⟨1, 1, 1⟩ 0 = .error Err.valueError ∧
    angle ⟨1, 1, 0⟩ = .ok (atan2 1 1) :=
  ⟨((C1_angle_domain_error ⟨1, 1, 1⟩ 0).1 (by norm_num)).1,
   ((C1_angle_domain_error ⟨1, 1, 1⟩ 0).1 (by norm_num)).2,
   ((C1_angle_domain_error ⟨1, 1, 0⟩ 0).2 rfl).1⟩

/-- C7: `rotate(theta)` is total (it performs no 2D precondition check —
its result type carries no error), replaces `(x, y)` by the standard
rotation-matrix image, and leaves `z` unchanged, for every vector
including those with `z ≠ 0`. -/
theorem C7_rotate_unguarded (v : Vector) (θ : ℝ) :
    (rotate v θ).x = v.x * Real.cos θ - v.y * Real.sin θ ∧
    (rotate v θ).y = v.x * Real.sin θ + v.y * Real.cos θ ∧
    (rotate v θ).z = v.z :=
  ⟨rfl, rfl, rfl⟩

/-- C8: multiplying a vector by a non-numeric operand (in particular by
another vector) raises `TypeError`; multiplying by a number returns a
new vector with every component scaled (the operand vector `v` is not
mutated: `mul` is a pure function returning a fresh value). `__rmul__`
delegates to `__mul__`. -/
theorem C8_mul_numeric_only (v w : Vector) (k : ℝ) :
    mul v (VObj.vec w) = .error Err.typeError ∧
    mul v VObj.other = .error Err.typeError ∧
    mul v (VObj.num k) = .ok ⟨v.x * k, v.y * k, v.z * k⟩ ∧
    rmul v (VObj.vec w) = .error Err.typeError ∧
    rmul v (VObj.num k) = .ok ⟨v.x * k, v.y * k, v.z * k⟩ :=
  ⟨rfl, rfl, rfl, rfl, rfl⟩

/-- C9: the cross product is anticommutative under the class's
approximate componentwise equality: `cross(a, b) == -cross(b, a)`,
where negation is multiplication by `-1`. -/
theorem C9_cross_anticommutative (a b : Vector) :
    ∃ n : Vector, neg (cross b a) = .ok n ∧ veq (cross a b) n := by
  refine ⟨⟨(b.y * a.z - b.z * a.y) * (-1), (b.z * a.x - b.x * a.z) * (-1),
    (b.x * a.y - b.y * a.x) * (-1)⟩, rfl, ?_⟩
  unfold veq cross
  exact ⟨isclose_of_eq (by ring), isclose_of_eq (by ring), isclose_of_eq (by ring)⟩

/-- C10: rotation preserves the magnitude (the rotation matrix leaves
`x² + y²` invariant and `z` is untouched), and therefore the `angle`
setter — which rotates by a delta whenever it succeeds — also never
changes a vector's length. -/
theorem C10_rotate_preserves_magnitude (v w : Vector) (θ : ℝ) :
    magnitude (rotate v θ) = magnitude v ∧
    (set_angle v θ = .ok w → magnitude w = magnitude v) := by
  refine ⟨magnitude_rotate v θ, fun h => ?_⟩
  unfold set_angle at h
  cases ha : angle v with
  | error e =>
    rw [ha] at h
    exact absurd h (by simp [Except.map])
  | ok a =>
    rw [ha] at h
    simp only [Except.map, Except.ok.injEq] at h
    rw [← h]
    exact magnitude_rotate v (θ - a)

theorem C10_rotate_preserves_magnitude_witness :
    set_angle ⟨1, 0, 0⟩ 0 = .ok ⟨1, 0, 0⟩ ∧
    magnitude (rotate ⟨1, 0, 0⟩ 0) = magnitude ⟨1, 0, 0⟩ ∧
    magnitude (⟨1, 0, 0⟩ : Vector) = magnitude (⟨1, 0, 0⟩ : Vector) := by
  have hset : set_angle ⟨1, 0, 0⟩ 0 = .ok ⟨1, 0, 0⟩ := by
    unfold set_angle angle
    rw [if_neg (not_not_intro rfl)]
    show Except.ok (rotate ⟨1, 0, 0⟩ (0 - atan2 0 1)) = _
    rw [atan2_zero_one]
    unfold rotate
    norm_num
  exact ⟨hset, (C10_rotate_preserves_magnitude ⟨1, 0, 0⟩ ⟨1, 0, 0⟩ 0).1,
    (C10_rotate_preserves_magnitude ⟨1, 0, 0⟩ ⟨1, 0, 0⟩ 0).2 hset⟩

/-- C2 counterexample: dividing a vector by the zero scalar raises
`ZeroDivisionError` (Python float division by zero traps), contradicting
the claim that none of these operations raises. -/
theorem C2_counterexample : truediv ⟨1, 2, 3⟩ 0 = .error Err.zeroDivisionError := by
  unfold truediv
  rw [if_pos rfl]

/-- C2 (amended): dividing by a zero scalar, normalizing or setting the
magnitude when the current magnitude is zero, and calling
`angle_between` with a zero-magnitude operand each raise
`ZeroDivisionError` — Python's float division by zero traps instead of
producing infinity/NaN. -/
theorem C2_zero_division_raises (v a b : Vector) (m : ℝ) :
    truediv v 0 = .error Err.zeroDivisionError ∧
    (magnitude v = 0 →
      set_magnitude v m = .error Err.zeroDivisionError ∧
      normalize v = .error Err.zeroDivisionError) ∧
    (magnitude a * magnitude b = 0 →
      angle_between a b = .error Err.zeroDivisionError) := by
  refine ⟨by unfold truediv; rw [if_pos rfl], fun h => ⟨?_, ?_⟩, fun h => ?_⟩
  · unfold set_magnitude
    rw [if_pos h]
  · unfold normalize set_magnitude
    rw [if_pos h]
  · unfold angle_between
    rw [if_pos h]

theorem C2_zero_division_raises_witness :
    set_magnitude ⟨0, 0, 0⟩ 1 = .error Err.zeroDivisionError ∧
    normalize ⟨0, 0, 0⟩ = .error Err.zeroDivisionError ∧
    angle_between ⟨0, 0, 0⟩ ⟨1, 1, 1⟩ = .error Err.zeroDivisionError ∧
    truediv ⟨4, 5, 6⟩ 0 = .error Err.zeroDivisionError :=
  ⟨((C2_zero_division_raises ⟨0, 0, 0⟩ ⟨0, 0, 0⟩ ⟨1, 1, 1⟩ 1).2.1 magnitude_zero_vec).1,
   ((C2_zero_division_raises ⟨0, 0, 0⟩ ⟨0, 0, 0⟩ ⟨1, 1, 1⟩ 1).2.1 magnitude_zero_vec).2,
   (C2_zero_division_raises ⟨0, 0, 0⟩ ⟨0, 0, 0⟩ ⟨1, 1, 1⟩ 1).2.2
     (by rw [magnitude_zero_vec, zero_mul]),
   (C2_zero_division_raises ⟨4, 5, 6⟩ ⟨0, 0, 0⟩ ⟨1, 1, 1⟩ 1).1⟩

/-- C4 counterexample: assigning the negative value `-7` to the
magnitude of `Vector(2, 3, 6)` yields `(-2, -3, -6)`, whose norm is `7`,
not the assigned `-7`. -/
theorem C4_counterexample :
    set_magnitude ⟨2, 3, 6⟩ (-7) = .ok ⟨-2, -3, -6⟩ ∧
    magnitude ⟨-2, -3, -6⟩ = 7 ∧ (7 : ℝ) ≠ -7 := by
  refine ⟨?_, ?_, by norm_num⟩
  · rw [set_magnitude_ok _ _ (by rw [magnitude_236]; norm_num), magnitude_236]
    norm_num
  · unfold magnitude dot
    rw [show (-2 : ℝ) * -2 + -3 * -3 + -6 * -6 = 7 ^ 2 from by norm_num]
    exact Real.sqrt_sq (by norm_num)

/-- C4 (amended): for every vector with nonzero magnitude and every
assigned value `m ≥ 0`, the magnitude setter rescales all three
components by `m / current_magnitude`, the resulting norm equals `m`,
and the result is a nonnegative multiple of the original vector
(direction preserved).  In particular, setting the magnitude of
`Vector(2, 3, 6)` to `14` yields `(4, 6, 12)`. -/
theorem C4_set_magnitude_rescales (v : Vector) (m : ℝ)
    (h : magnitude v ≠ 0) (hm : 0 ≤ m) :
    (∃ w, set_magnitude v m = .ok w ∧
      w.x = v.x / magnitude v * m ∧
      w.y = v.y / magnitude v * m ∧
      w.z = v.z / magnitude v * m ∧
      0 ≤ m / magnitude v ∧
      magnitude w = m) ∧
    set_magnitude ⟨2, 3, 6⟩ 14 = .ok ⟨4, 6, 12⟩ := by
  constructor
  · exact ⟨_, set_magnitude_ok v m h, rfl, rfl, rfl,
      div_nonneg hm (magnitude_nonneg v), magnitude_scaled v m h hm⟩
  · rw [set_magnitude_ok _ _ (by rw [magnitude_236]; norm_num), magnitude_236]
    norm_num

theorem C4_set_magnitude_rescales_witness :
    (∃ w, set_magnitude ⟨2, 3, 6⟩ 14 = .ok w ∧
      w.x = Vector.x ⟨2, 3, 6⟩ / magnitude ⟨2, 3, 6⟩ * 14 ∧
      w.y = Vector.y ⟨2, 3, 6⟩ / magnitude ⟨2, 3, 6⟩ * 14 ∧
      w.z = Vector.z ⟨2, 3, 6⟩ / magnitude ⟨2, 3, 6⟩ * 14 ∧
      0 ≤ 14 / magnitude ⟨2, 3, 6⟩ ∧
      magnitude w = 14) ∧
    set_magnitude ⟨2, 3, 6⟩ 14 = .ok ⟨4, 6, 12⟩ :=
  C4_set_magnitude_rescales ⟨2, 3, 6⟩ 14 (by rw [magnitude_236]; norm_num) (by norm_num)

/-- C5: `limit` defaults each omitted bound to the current magnitude,
so calling it with both bounds omitted never changes the vector; the
lower-bound branch is tested first (when `magnitude < lower` the
magnitude is set to `lower` regardless of the upper bound, else when
`magnitude > upper` it is set to `upper`, otherwise the vector is
unchanged); and `limit(upper_limit=1)` on a vector of magnitude greater
than `1` yields magnitude exactly `1` with every component scaled by the
same positive factor `1 / magnitude` (direction unchanged). -/
theorem C5_limit_clamps (v : Vector) (u l : ℝ) (uo lo : Option ℝ) :
    limit v none none = .ok v ∧
    (magnitude v < l → limit v uo (some l) = set_magnitude v l) ∧
    (¬ magnitude v < lo.getD (magnitude v) → magnitude v > u →
      limit v (some u) lo = set_magnitude v u) ∧
    (lo.getD (magnitude v) ≤ magnitude v → magnitude v ≤ uo.getD (magnitude v) →
      limit v uo lo = .ok v) ∧
    (1 < magnitude v → ∃ w, limit v (some 1) none = .ok w ∧ magnitude w = 1 ∧
      w.x = v.x / magnitude v * 1 ∧ w.y = v.y / magnitude v * 1 ∧
      w.z = v.z / magnitude v * 1 ∧ 0 < 1 / magnitude v) := by
  refine ⟨?_, fun h => ?_, fun h1 h2 => ?_, fun h1 h2 => ?_, fun h => ?_⟩
  · unfold limit
    rw [Option.getD_none, if_neg (lt_irrefl _), if_neg (lt_irrefl _)]
  · unfold limit
    rw [Option.getD_some, if_pos h]
  · unfold limit
    rw [Option.getD_some, if_neg h1, if_pos h2]
  · unfold limit
    rw [if_neg (not_lt.mpr h1), if_neg (not_lt.mpr h2)]
  · have hm : magnitude v ≠ 0 := by positivity
    have hlim : limit v (some 1) none = set_magnitude v 1 := by
      unfold limit
      rw [Option.getD_none, Option.getD_some, if_neg (lt_irrefl _), if_pos h]
    refine ⟨_, hlim.trans (set_magnitude_ok v 1 hm), magnitude_scaled v 1 hm zero_le_one,
      rfl, rfl, rfl, ?_⟩
    have : 0 < magnitude v := magnitude_pos_of_ne v hm
    positivity

theorem C5_limit_clamps_witness :
    limit ⟨3, 4, 0⟩ none none = .ok ⟨3, 4, 0⟩ ∧
    limit ⟨3, 4, 0⟩ none (some 6) = set_magnitude ⟨3, 4, 0⟩ 6 ∧
    limit ⟨3, 4, 0⟩ (some 2) none = set_magnitude ⟨3, 4, 0⟩ 2 ∧
    limit ⟨3, 4, 0⟩ (some 9) (some 2) = .ok ⟨3, 4, 0⟩ ∧
    (∃ w, limit ⟨3, 4, 0⟩ (some 1) none = .ok w ∧ magnitude w = 1 ∧
      w.x = Vector.x ⟨3, 4, 0⟩ / magnitude ⟨3, 4, 0⟩ * 1 ∧
      w.y = Vector.y ⟨3, 4, 0⟩ / magnitude ⟨3, 4, 0⟩ * 1 ∧
      w.z = Vector.z ⟨3, 4, 0⟩ / magnitude ⟨3, 4, 0⟩ * 1 ∧
      0 < 1 / magnitude ⟨3, 4, 0⟩) :=
  ⟨(C5_limit_clamps ⟨3, 4, 0⟩ 2 6 none none).1,
   (C5_limit_clamps ⟨3, 4, 0⟩ 2 6 none none).2.1 (by rw [magnitude_340]; norm_num),
   (C5_limit_clamps ⟨3, 4, 0⟩ 2 6 none none).2.2.1
     (by rw [Option.getD_none]; exact lt_irrefl _) (by rw [magnitude_340]; norm_num),
   (C5_limit_clamps ⟨3, 4, 0⟩ 2 6 (some 9) (some 2)).2.2.2.1
     (by rw [Option.getD_some, magnitude_340]; norm_num)
     (by rw [Option.getD_some, magnitude_340]; norm_num),
   (C5_limit_clamps ⟨3, 4, 0⟩ 2 6 none none).2.2.2.2 (by rw [magnitude_340]; norm_num)⟩

/-- C6 counterexample: the all-zero draw lies in `[0,1)` for every
coordinate, yet `random_2D` and `random_3D` then raise
`ZeroDivisionError` from `normalize` instead of returning a unit
vector. -/
theorem C6_counterexample :
    (0 : ℝ) ≤ 0 ∧ (0 : ℝ) < 1 ∧
    random_2D 0 0 = .error Err.zeroDivisionError ∧
    random_3D 0 0 0 = .error Err.zeroDivisionError := by
  refine ⟨le_refl 0, by norm_num, ?_, ?_⟩
  · unfold random_2D normalize set_magnitude
    rw [if_pos magnitude_zero_vec]
  · unfold random_3D normalize set_magnitude
    rw [if_pos magnitude_zero_vec]

/-- C6 (amended): for every draw of the underlying uniform values in
`[0,1)` other than all-zeros, `random_2D` and `random_3D` return a
vector of magnitude exactly `1` (in the real-number model), and every
`random_3D` result has all three components non-negative (it lies in
the all-positive octant); the all-zero draw instead raises
`ZeroDivisionError`. -/
theorem C6_random_unit (x y z : ℝ)
    (hx0 : 0 ≤ x) (hx1 : x < 1) (hy0 : 0 ≤ y) (hy1 : y < 1)
    (hz0 : 0 ≤ z) (hz1 : z < 1)
    (h2 : ¬(x = 0 ∧ y = 0)) (h3 : ¬(x = 0 ∧ y = 0 ∧ z = 0)) :
    (∃ w, random_2D x y = .ok w ∧ magnitude w = 1) ∧
    (∃ w, random_3D x y z = .ok w ∧ magnitude w = 1 ∧
      0 ≤ w.x ∧ 0 ≤ w.y ∧ 0 ≤ w.z) := by
  have hm2 : magnitude ⟨x, y, 0⟩ ≠ 0 := fun hh =>
    h2 ⟨((magnitude_eq_zero_iff _).mp hh).1, ((magnitude_eq_zero_iff _).mp hh).2.1⟩
  have hm3 : magnitude ⟨x, y, z⟩ ≠ 0 := fun hh => h3 ((magnitude_eq_zero_iff _).mp hh)
  have hp3 : 0 < magnitude ⟨x, y, z⟩ := magnitude_pos_of_ne _ hm3
  constructor
  · exact ⟨_, set_magnitude_ok ⟨x, y, 0⟩ 1 hm2, magnitude_scaled ⟨x, y, 0⟩ 1 hm2 zero_le_one⟩
  · refine ⟨_, set_magnitude_ok ⟨x, y, z⟩ 1 hm3,
      magnitude_scaled ⟨x, y, z⟩ 1 hm3 zero_le_one, ?_, ?_, ?_⟩
    · exact mul_nonneg (div_nonneg hx0 hp3.le) zero_le_one
    · exact mul_nonneg (div_nonneg hy0 hp3.le) zero_le_one
    · exact mul_nonneg (div_nonneg hz0 hp3.le) zero_le_one

theorem C6_random_unit_witness :
    (∃ w, random_2D (1/2) 0 = .ok w ∧ magnitude w = 1) ∧
    (∃ w, random_3D (1/2) 0 0 = .ok w ∧ magnitude w = 1 ∧
      0 ≤ w.x ∧ 0 ≤ w.y ∧ 0 ≤ w.z) :=
  C6_random_unit (1/2) 0 0 (by norm_num) (by norm_num) (by norm_num) (by norm_num)
    (by norm_num) (by norm_num) (by norm_num) (by norm_num)

lemma unit_components (x y : ℝ) (h : magnitude ⟨x, y, 0⟩ ≠ 0) :
    (x / magnitude ⟨x, y, 0⟩) * (x / magnitude ⟨x, y, 0⟩)
      + (y / magnitude ⟨x, y, 0⟩) * (y / magnitude ⟨x, y, 0⟩) = 1 := by
  have h2 : magnitude ⟨x, y, 0⟩ ^ 2 = dot ⟨x, y, 0⟩ ⟨x, y, 0⟩ := sq_magnitude _
  unfold dot at h2
  field_simp
  linear_combination -h2

/-- Behavior of `from_angle` on any draw that is not all zeros: the
intermediate random vector is normalized to a unit 2D vector and the
angle assignment rotates it onto `(cos θ, sin θ)`. -/
lemma from_angle_ok (x y θ : ℝ) (h : ¬(x = 0 ∧ y = 0)) :
    from_angle x y θ = .ok ⟨Real.cos θ, Real.sin θ, 0⟩ := by
  have hm : magnitude ⟨x, y, 0⟩ ≠ 0 := fun hh =>
    h ⟨((magnitude_eq_zero_iff _).mp hh).1, ((magnitude_eq_zero_iff _).mp hh).2.1⟩
  have h1 : random_2D x y =
      .ok ⟨x / magnitude ⟨x, y, 0⟩ * 1, y / magnitude ⟨x, y, 0⟩ * 1,
           0 / magnitude ⟨x, y, 0⟩ * 1⟩ :=
    set_magnitude_ok ⟨x, y, 0⟩ 1 hm
  have h1' : random_2D x y =
      .ok ⟨x / magnitude ⟨x, y, 0⟩, y / magnitude ⟨x, y, 0⟩, 0⟩ := by
    rw [h1, mul_one, mul_one, zero_div, zero_mul]
  have hunit := unit_components x y hm
  have ha : angle ⟨x / magnitude ⟨x, y, 0⟩, y / magnitude ⟨x, y, 0⟩, 0⟩ =
      .ok (atan2 (y / magnitude ⟨x, y, 0⟩) (x / magnitude ⟨x, y, 0⟩)) := by
    unfold angle
    rw [if_neg (not_not_intro rfl)]
  unfold from_angle
  rw [h1']
  show set_angle ⟨x / magnitude ⟨x, y, 0⟩, y / magnitude ⟨x, y, 0⟩, 0⟩ θ = _
  unfold set_angle
  rw [ha]
  show Except.ok (rotate ⟨x / magnitude ⟨x, y, 0⟩, y / magnitude ⟨x, y, 0⟩, 0⟩
    (θ - atan2 (y / magnitude ⟨x, y, 0⟩) (x / magnitude ⟨x, y, 0⟩))) = _
  rw [rotate_unit _ _ θ hunit]

/-- Reading `angle` on `(cos θ, sin θ, 0)` recovers `θ` when `θ` lies in
`atan2`'s range `(-π, π]`. -/
lemma angle_cos_sin (θ : ℝ) (h1 : -π < θ) (h2 : θ ≤ π) :
    angle ⟨Real.cos θ, Real.sin θ, 0⟩ = .ok θ := by
  unfold angle
  rw [if_neg (not_not_intro rfl)]
  show Except.ok (atan2 (Real.sin θ) (Real.cos θ)) = _
  rw [atan2_cos_sin θ h1 h2]

/-- C3 counterexample: (i) on the all-zero draw — a possible value of
the uniform source — `from_angle` raises `ZeroDivisionError` instead of
returning a vector; (ii) for `θ = 3π/2 ∈ [0, 2π)` the returned vector's
`angle` read is `3π/2 - 2π = -π/2`, which is not `θ` and not within the
`isclose` tolerance of `θ`. -/
theorem C3_counterexample :
    from_angle 0 0 0 = .error Err.zeroDivisionError ∧
    from_angle (1/2) 0 (3 * π / 2) =
      .ok ⟨Real.cos (3 * π / 2), Real.sin (3 * π / 2), 0⟩ ∧
    angle ⟨Real.cos (3 * π / 2), Real.sin (3 * π / 2), 0⟩ =
      .ok (3 * π / 2 - 2 * π) ∧
    3 * π / 2 - 2 * π ≠ 3 * π / 2 ∧
    ¬ isclose (3 * π / 2 - 2 * π) (3 * π / 2) := by
  have hpi := Real.pi_pos
  refine ⟨?_, from_angle_ok (1/2) 0 (3 * π / 2) (by norm_num), ?_, by intro h; linarith, ?_⟩
  · unfold from_angle random_2D normalize set_magnitude
    rw [if_pos magnitude_zero_vec]
    rfl
  · have h := angle_cos_sin (3 * π / 2 - 2 * π) (by linarith) (by linarith)
    rw [Real.cos_sub_two_pi, Real.sin_sub_two_pi] at h
    exact h
  · unfold isclose
    rw [not_le]
    have habs : |3 * π / 2 - 2 * π - 3 * π / 2| = 2 * π := by
      rw [show 3 * π / 2 - 2 * π - 3 * π / 2 = -(2 * π) from by ring, abs_neg,
        abs_of_pos (by linarith)]
    have ha1 : |3 * π / 2 - 2 * π| = π / 2 := by
      rw [show 3 * π / 2 - 2 * π = -(π / 2) from by ring, abs_neg,
        abs_of_pos (by linarith)]
    have ha2 : |3 * π / 2| = 3 * π / 2 := abs_of_pos (by linarith)
    rw [habs, ha1, ha2, max_eq_right (by linarith : π / 2 ≤ 3 * π / 2),
      max_eq_left (by positivity : (0:ℝ) ≤ (1e-9 : ℝ) * (3 * π / 2))]
    nlinarith

/-- C3 (amended): for every draw `(x, y)` of the uniform source in
`[0,1)²` other than `(0, 0)` and every `θ ∈ [0, 2π)`, `from_angle`
returns the unit vector `(cos θ, sin θ, 0)` — magnitude exactly `1` in
the real-number model — and its `angle` read returns `θ` reduced into
`atan2`'s range `(-π, π]`: it equals `θ` for `θ ∈ [0, π]` and `θ - 2π`
for `θ ∈ (π, 2π)`.  On the all-zero draw `from_angle` instead raises
`ZeroDivisionError`. -/
theorem C3_from_angle_unit (x y θ : ℝ)
    (hx0 : 0 ≤ x) (hx1 : x < 1) (hy0 : 0 ≤ y) (hy1 : y < 1)
    (hxy : ¬(x = 0 ∧ y = 0)) (hθ0 : 0 ≤ θ) (hθ2 : θ < 2 * π) :
    from_angle x y θ = .ok ⟨Real.cos θ, Real.sin θ, 0⟩ ∧
    magnitude ⟨Real.cos θ, Real.sin θ, 0⟩ = 1 ∧
    (θ ≤ π → angle ⟨Real.cos θ, Real.sin θ, 0⟩ = .ok θ) ∧
    (π < θ → angle ⟨Real.cos θ, Real.sin θ, 0⟩ = .ok (θ - 2 * π)) ∧
    from_angle 0 0 θ = .error Err.zeroDivisionError := by
  have hpi := Real.pi_pos
  refine ⟨from_angle_ok x y θ hxy, magnitude_cos_sin θ, fun hle => ?_, fun hgt => ?_, ?_⟩
  · exact angle_cos_sin θ (by linarith) hle
  · have h := angle_cos_sin (θ - 2 * π) (by linarith) (by linarith)
    rw [Real.cos_sub_two_pi, Real.sin_sub_two_pi] at h
    exact h
  · unfold from_angle random_2D normalize set_magnitude
    rw [if_pos magnitude_zero_vec]
    rfl

theorem C3_from_angle_unit_witness :
    from_angle (1/2) 0 0 = .ok ⟨Real.cos 0, Real.sin 0, 0⟩ ∧
    magnitude ⟨Real.cos 0, Real.sin 0, 0⟩ = 1 ∧
    angle ⟨Real.cos 0, Real.sin 0, 0⟩ = .ok 0 ∧
    from_angle 0 0 0 = .error Err.zeroDivisionError :=
  ⟨(C3_from_angle_unit (1/2) 0 0 (by norm_num) (by norm_num) (by norm_num) (by norm_num)
      (by norm_num) (le_refl 0) (by positivity)).1,
   (C3_from_angle_unit (1/2) 0 0 (by norm_num) (by norm_num) (by norm_num) (by norm_num)
      (by norm_num) (le_refl 0) (by positivity)).2.1,
   (C3_from_angle_unit (1/2) 0 0 (by norm_num) (by norm_num) (by norm_num) (by norm_num)
      (by norm_num) (le_refl 0) (by positivity)).2.2.1 Real.pi_pos.le,
   (C3_from_angle_unit (1/2) 0 0 (by norm_num) (by norm_num) (by norm_num) (by norm_num)
      (by norm_num) (le_refl 0) (by positivity)).2.2.2.2⟩

end

end P5
